import Mathlib

/-!
Verification of the trademaxxer news fan-out pipeline.

Shallow embedding of the repository's core components:
  * the in-memory pub/sub bus (`server/pubsub.py`),
  * the channel router (`server/news_streamer/pubsub/channels.py`),
  * the reconnection backoff state (`server/news_streamer/core/types.py`),
  * the tagger urgency/ticker logic (`server/news_streamer/tagger/tagger.py`),
  * the data models (`server/news_streamer/models/news.py`),
  * the DBNews normalizer (`server/news_streamer/dbnews_client/normalizer.py`).

Python callbacks are modelled by their identity (`id(cb)`) as a natural
number; Python dicts preserving insertion order are modelled as association
lists; Python floats are modelled as rationals.
-/

/-- A subscriber callback, identified (as Python's `id(cb)`) by a number. -/
abbrev Callback := Nat

/-- The in-memory bus `PubSub` from `server/pubsub.py`: a mapping
(`defaultdict(list)`) from channel name to the ordered list of callbacks. -/
structure PubSub where
  subs : List (String × List Callback)
deriving DecidableEq

/-- A freshly constructed bus (`PubSub.__init__`). -/
def PubSub.empty : PubSub := { subs := [] }

/-- Dictionary lookup `self._subs.get(ch, ())` used by `publish`. -/
def PubSub.getSubs (b : PubSub) (ch : String) : List Callback :=
  match b.subs.find? (fun p => p.1 == ch) with
  | some p => p.2
  | none => []

/-- `PubSub.subscribe`: `self._subs[channel].append(cb)`; the defaultdict
creates the channel entry when missing. -/
def PubSub.subscribe (b : PubSub) (ch : String) (cb : Callback) : PubSub :=
  if (b.subs.find? (fun p => p.1 == ch)).isSome then
    { subs := b.subs.map (fun p => if p.1 == ch then (p.1, p.2 ++ [cb]) else p) }
  else
    { subs := b.subs ++ [(ch, [cb])] }

/-- Python's `list.remove`: drop the first occurrence only. -/
def removeFirst : List Callback → Callback → List Callback
  | [], _ => []
  | x :: xs, cb => if x = cb then xs else x :: removeFirst xs cb

/-- `PubSub.unsubscribe`. Note the faithful defaultdict semantics: when the
channel has no entry, the expression `self._subs[channel]` inserts a fresh
empty list before `.remove` raises `ValueError` (which is caught), so the
bus is left with an empty entry for that channel. -/
def PubSub.unsubscribe (b : PubSub) (ch : String) (cb : Callback) : PubSub :=
  match b.subs.find? (fun p => p.1 == ch) with
  | none => { subs := b.subs ++ [(ch, [])] }
  | some p =>
    if cb ∈ p.2 then
      let l' := removeFirst p.2 cb
      if l' = [] then
        { subs := b.subs.filter (fun q => q.1 != ch) }
      else
        { subs := b.subs.map (fun q => if q.1 == ch then (q.1, l') else q) }
    else b

/-- The inner loop of `PubSub.publish`: walk one channel's callback list,
skipping callbacks already `seen`, returning the updated seen-set and the
newly scheduled callbacks (in order). -/
def addChannel (seen : List Callback) : List Callback → List Callback × List Callback
  | [] => (seen, [])
  | cb :: rest =>
    if cb ∈ seen then addChannel seen rest
    else
      let r := addChannel (cb :: seen) rest
      (r.1, cb :: r.2)

/-- The outer loop of `PubSub.publish` over the given channels. -/
def publishGo (b : PubSub) (seen : List Callback) : List String → List Callback
  | [] => []
  | ch :: rest =>
    let r := addChannel seen (b.getSubs ch)
    r.2 ++ publishGo b r.1 rest

/-- The list of tasks scheduled by one `publish` call, in scheduling order. -/
def PubSub.publishFired (b : PubSub) (channels : List String) : List Callback :=
  publishGo b [] channels

/-- `PubSub.publish` returns `len(tasks)`. -/
def PubSub.publish (b : PubSub) (channels : List String) : Nat :=
  (b.publishFired channels).length

/-- `PubSub.channel_count` property: `len(self._subs)`. -/
def PubSub.channel_count (b : PubSub) : Nat := b.subs.length

/-- `PubSub.subscriber_count` property: sum of list lengths. -/
def PubSub.subscriber_count (b : PubSub) : Nat :=
  (b.subs.map (fun p => p.2.length)).sum

theorem addChannel_fst_mem (l : List Callback) :
    ∀ seen x, x ∈ (addChannel seen l).1 ↔ x ∈ seen ∨ x ∈ l := by
  induction l with
  | nil => intro seen x; simp [addChannel]
  | cons cb rest ih =>
    intro seen x
    by_cases h : cb ∈ seen
    · simp only [addChannel, if_pos h, ih]
      constructor
      · rintro (hs | hr)
        · exact Or.inl hs
        · exact Or.inr (List.mem_cons_of_mem _ hr)
      · rintro (hs | hr)
        · exact Or.inl hs
        · rcases List.mem_cons.mp hr with rfl | hr
          · exact Or.inl h
          · exact Or.inr hr
    · simp only [addChannel, if_neg h, ih, List.mem_cons]
      tauto

theorem addChannel_snd_mem (l : List Callback) :
    ∀ seen x, x ∈ (addChannel seen l).2 ↔ x ∈ l ∧ x ∉ seen := by
  induction l with
  | nil => intro seen x; simp [addChannel]
  | cons cb rest ih =>
    intro seen x
    by_cases h : cb ∈ seen
    · simp only [addChannel, if_pos h, ih, List.mem_cons]
      constructor
      · rintro ⟨hr, hs⟩; exact ⟨Or.inr hr, hs⟩
      · rintro ⟨hcr, hs⟩
        rcases hcr with rfl | hr
        · exact absurd h hs
        · exact ⟨hr, hs⟩
    · simp only [addChannel, if_neg h, List.mem_cons, ih]
      constructor
      · rintro (rfl | ⟨hr, hs⟩)
        · exact ⟨Or.inl rfl, h⟩
        · exact ⟨Or.inr hr, fun hx => hs (Or.inr hx)⟩
      · rintro ⟨rfl | hr, hs⟩
        · exact Or.inl rfl
        · by_cases hxcb : x = cb
          · exact Or.inl hxcb
          · exact Or.inr ⟨hr, fun hx => hx.elim hxcb hs⟩

theorem addChannel_snd_nodup (l : List Callback) :
    ∀ seen, (addChannel seen l).2.Nodup := by
  induction l with
  | nil => intro seen; simp [addChannel]
  | cons cb rest ih =>
    intro seen
    by_cases h : cb ∈ seen
    · simpa [addChannel, if_pos h] using ih seen
    · simp only [addChannel, if_neg h]
      refine List.nodup_cons.mpr ⟨?_, ih (cb :: seen)⟩
      intro hmem
      exact ((addChannel_snd_mem rest (cb :: seen) cb).mp hmem).2 (List.mem_cons_self _ _)

theorem publishGo_mem (b : PubSub) (channels : List String) :
    ∀ seen x, x ∈ publishGo b seen channels ↔
      (∃ ch ∈ channels, x ∈ b.getSubs ch) ∧ x ∉ seen := by
  induction channels with
  | nil => intro seen x; simp [publishGo]
  | cons ch rest ih =>
    intro seen x
    simp only [publishGo, List.mem_append, addChannel_snd_mem, ih,
      addChannel_fst_mem, List.mem_cons]
    constructor
    · rintro (⟨hx, hs⟩ | ⟨⟨c, hc, hxc⟩, hns⟩)
      · exact ⟨⟨ch, Or.inl rfl, hx⟩, hs⟩
      · exact ⟨⟨c, Or.inr hc, hxc⟩, fun hx => hns (Or.inl hx)⟩
    · rintro ⟨⟨c, hc | hc, hxc⟩, hs⟩
      · subst hc; exact Or.inl ⟨hxc, hs⟩
      · by_cases hch : x ∈ b.getSubs ch
        · exact Or.inl ⟨hch, hs⟩
        · exact Or.inr ⟨⟨c, hc, hxc⟩, fun h => h.elim hs hch⟩

theorem publishGo_nodup (b : PubSub) (channels : List String) :
    ∀ seen, (publishGo b seen channels).Nodup := by
  induction channels with
  | nil => intro seen; simp [publishGo]
  | cons ch rest ih =>
    intro seen
    simp only [publishGo]
    refine List.Nodup.append (addChannel_snd_nodup _ _) (ih _) ?_
    intro x hx1 hx2
    have h1 := (addChannel_snd_mem (b.getSubs ch) seen x).mp hx1
    have h2 := (publishGo_mem b rest _ x).mp hx2
    exact h2.2 ((addChannel_fst_mem (b.getSubs ch) seen x).mpr (Or.inr h1.1))

/-- C1: for every bus state and channel list, `publish` schedules each
subscribed callback at most once (the scheduled-task list has no duplicates),
a callback is scheduled iff it is subscribed on at least one of the given
channels (dedup by callback identity across channels), and the returned count
is the number of distinct callbacks invoked. -/
theorem C1_publish_dedup_and_count (b : PubSub) (channels : List String) :
    (b.publishFired channels).Nodup
    ∧ (∀ cb : Callback,
        cb ∈ b.publishFired channels ↔ ∃ ch ∈ channels, cb ∈ b.getSubs ch)
    ∧ b.publish channels = (b.publishFired channels).length
    ∧ b.publish channels = ((channels.map b.getSubs).flatten.dedup).length := by
  have hnd : (b.publishFired channels).Nodup := publishGo_nodup b channels []
  have hmem : ∀ cb : Callback,
      cb ∈ b.publishFired channels ↔ ∃ ch ∈ channels, cb ∈ b.getSubs ch := by
    intro cb
    simpa [PubSub.publishFired] using publishGo_mem b channels [] cb
  refine ⟨hnd, hmem, rfl, ?_⟩
  have hdnd : ((channels.map b.getSubs).flatten.dedup).Nodup := List.nodup_dedup _
  have hset : (b.publishFired channels).toFinset
      = ((channels.map b.getSubs).flatten.dedup).toFinset := by
    ext x
    simp only [List.mem_toFinset, hmem, List.mem_dedup, List.mem_flatten,
      List.mem_map]
    constructor
    · rintro ⟨ch, hch, hx⟩
      exact ⟨b.getSubs ch, ⟨ch, hch, rfl⟩, hx⟩
    · rintro ⟨l, ⟨ch, hch, rfl⟩, hx⟩
      exact ⟨ch, hch, hx⟩
  have h1 := List.toFinset_card_of_nodup hnd
  have h2 := List.toFinset_card_of_nodup hdnd
  calc b.publish channels = (b.publishFired channels).length := rfl
    _ = (b.publishFired channels).toFinset.card := h1.symm
    _ = ((channels.map b.getSubs).flatten.dedup).toFinset.card := by rw [hset]
    _ = ((channels.map b.getSubs).flatten.dedup).length := h2

/-- A JSON-like Python value, as carried by DBNews wire records
(`dict[str, Any]` in the source). -/
inductive JValue where
  | none
  | bool (b : Bool)
  | int (n : Int)
  | str (s : String)
  | list (xs : List JValue)
  | dict (kvs : List (String × JValue))

/-- Python truthiness: `None`, `False`, `0`, `""`, `[]`, `{}` are falsy. -/
def JValue.truthy : JValue → Bool
  | .none => false
  | .bool b => b
  | .int n => n != 0
  | .str s => s != ""
  | .list xs => !xs.isEmpty
  | .dict kvs => !kvs.isEmpty

/-- Python `str.upper()` (modelled on the ASCII range, which covers ticker
symbols). -/
def pyUpper (s : String) : String := String.mk (s.data.map Char.toUpper)

/-- A `datetime.datetime` value; `tz` is the UTC offset in seconds, `none`
when the value is naive. -/
structure PyDateTime where
  year : Nat
  month : Nat
  day : Nat
  hour : Nat
  minute : Nat
  second : Nat
  microsecond : Nat
  tz : Option Int
deriving DecidableEq

/-- The `SourceType` enum from `models/news.py`. -/
inductive SourceType where
  | twitter | telegram | rss | news_wire | other
deriving DecidableEq

/-- The wire value of each `SourceType` member. -/
def SourceType.value : SourceType → String
  | .twitter => "Twitter"
  | .telegram => "Telegram"
  | .rss => "RSS"
  | .news_wire => "News"
  | .other => "Other"

/-- The `Sentiment` enum from `models/news.py`. -/
inductive Sentiment where
  | bullish | bearish | neutral
deriving DecidableEq

/-- The `Urgency` enum from `models/news.py`. -/
inductive Urgency where
  | breaking | high | normal | low
deriving DecidableEq

/-- `Urgency.value` strings. -/
def Urgency.value : Urgency → String
  | .breaking => "breaking"
  | .high => "high"
  | .normal => "normal"
  | .low => "low"

/-- The `Category` enum from `models/news.py`. -/
inductive Category where
  | politics | sports | culture | crypto | climate | economics
  | mentions | companies | financials | tech_science
deriving DecidableEq

/-- `Category.value` strings. -/
def Category.value : Category → String
  | .politics => "politics"
  | .sports => "sports"
  | .culture => "culture"
  | .crypto => "crypto"
  | .climate => "climate"
  | .economics => "economics"
  | .mentions => "mentions"
  | .companies => "companies"
  | .financials => "financials"
  | .tech_science => "tech_science"

/-- The frozen dataclass `TaggedNewsItem` from `models/news.py`.
Tuples become lists, `float` becomes `ℚ`, datetimes become `PyDateTime`. -/
structure TaggedNewsItem where
  id : String
  timestamp : PyDateTime
  received_at : PyDateTime
  headline : String
  body : String
  source_type : SourceType
  source_handle : String
  source_url : String
  tickers : List String
  categories : List Category
  keywords : List String
  sentiment : Sentiment
  sentiment_score : ℚ
  urgency : Urgency
  source_description : String := ""
  source_avatar : String := ""
  media_url : String := ""
  ticker_reasons : List String := []
  urgency_tags : List String := []
  is_highlight : Bool := false
  is_narrative : Bool := false
  economic_event_type : String := ""
  platform_tag_ids : List String := []
  platform_tag_slugs : List String := []
  raw_data : Option JValue := Option.none

/-- `TaggedNewsItem.__post_init__`: construction either returns the item or
raises `ValueError` (modelled as `Except.error` with the message). -/
def TaggedNewsItem.validate (x : TaggedNewsItem) : Except String TaggedNewsItem :=
  if x.id = "" then
    .error "id must be non-empty string"
  else if ¬ (-1 ≤ x.sentiment_score ∧ x.sentiment_score ≤ 1) then
    .error ("sentiment_score must be in range [-1.0, 1.0], got "
      ++ toString x.sentiment_score)
  else
    .ok x

/-- The global channel constant `ALL` from `news_streamer/pubsub/channels.py`. -/
def ALL : String := "news:all"

/-- `urgency_channel` from `channels.py`. -/
def urgency_channel (urgency : String) : String := "news:urgency:" ++ urgency

/-- `category_channel` from `channels.py` (the CATEGORY constant inlined). -/
def category_channel (category : String) : String := "news:category:" ++ category

/-- `ticker_channel` from `channels.py` (the TICKER constant inlined):
the symbol is upper-cased. -/
def ticker_channel (ticker : String) : String := "news:ticker:" ++ pyUpper ticker

/-- `channels_for_item` from `channels.py`: the global channel, the urgency
channel, one channel per category, one channel per ticker, in that order. -/
def channels_for_item (item : TaggedNewsItem) : List String :=
  [ALL, urgency_channel item.urgency.value]
    ++ item.categories.map (fun c => category_channel c.value)
    ++ item.tickers.map ticker_channel

theorem str_append_left_cancel {p a b : String} (h : p ++ a = p ++ b) : a = b := by
  have hd : p.data ++ a.data = p.data ++ b.data := by
    have := congrArg String.data h
    simpa [String.data_append] using this
  exact String.ext (List.append_cancel_left hd)

theorem idx5_ne {s t : String} (h : s.data[5]? ≠ t.data[5]?) : s ≠ t :=
  fun he => h (he ▸ rfl)

theorem idx5_prefixed {p : String} (a : String) (hp : 5 < p.data.length) :
    (p ++ a).data[5]? = p.data[5]? := by
  rw [String.data_append, List.getElem?_append]
  rw [if_pos hp]

theorem idx5_urgency (u : String) : (urgency_channel u).data[5]? = some 'u' := by
  rw [urgency_channel, idx5_prefixed u (by decide)]
  rfl

theorem idx5_category (c : String) : (category_channel c).data[5]? = some 'c' := by
  rw [category_channel, idx5_prefixed c (by decide)]
  rfl

theorem idx5_ticker (t : String) : (ticker_channel t).data[5]? = some 't' := by
  rw [ticker_channel, idx5_prefixed (pyUpper t) (by decide)]
  rfl

theorem idx5_all : ALL.data[5]? = some 'a' := by rfl

theorem Category.value_injective :
    ∀ a b : Category, a.value = b.value → a = b := by
  intro a b
  cases a <;> cases b <;> decide

/-- A representative timezone-aware instant (2025-07-24T17:06:15Z). -/
def sampleDT : PyDateTime :=
  { year := 2025, month := 7, day := 24, hour := 17, minute := 6, second := 15,
    microsecond := 0, tz := some 0 }

/-- A well-formed tagged item with distinct categories and tickers. -/
def c2GoodItem : TaggedNewsItem :=
  { id := "item-2", timestamp := sampleDT, received_at := sampleDT,
    headline := "Bitcoin hits 100k for the first time", body := "",
    source_type := SourceType.news_wire, source_handle := "wire",
    source_url := "", tickers := ["BTC", "ETH"], categories := [Category.crypto],
    keywords := [], sentiment := Sentiment.bullish, sentiment_score := 9/10,
    urgency := Urgency.breaking }

/-- A tagged item whose tickers differ only by case; such an item is even
producible by the tagger, whose ticker extraction does not case-normalize. -/
def c2DupItem : TaggedNewsItem :=
  { id := "item-dup", timestamp := sampleDT, received_at := sampleDT,
    headline := "btc vs BTC", body := "",
    source_type := SourceType.news_wire, source_handle := "wire",
    source_url := "", tickers := ["BTC", "btc"], categories := [],
    keywords := [], sentiment := Sentiment.neutral, sentiment_score := 0,
    urgency := Urgency.normal }

/-- C2 counterexample: the claim fails as stated. For the constructible item
`c2DupItem` (tickers `BTC` and `btc`), `channels_for_item` yields the right
number of entries but with a duplicate (`news:ticker:BTC` twice), so it does
not yield `1 + 1 + |categories| + |tickers|` channels with no duplicates. -/
theorem C2_counterexample :
    TaggedNewsItem.validate c2DupItem = Except.ok c2DupItem
    ∧ (channels_for_item c2DupItem).length = 4
    ∧ ¬ (channels_for_item c2DupItem).Nodup := by
  refine ⟨?_, rfl, by decide⟩
  unfold TaggedNewsItem.validate
  rw [if_neg (by decide), if_neg (not_not_intro (by norm_num [c2DupItem]))]

/-- C2 (amended): `channels_for_item t` yields exactly
`1 + 1 + |t.categories| + |t.tickers|` entries — the global channel, the
urgency channel for `t.urgency`, one channel per category, one channel per
ticker, and no others — and the entries have no duplicates provided
`t.categories` are distinct and `t.tickers` are distinct after upper-casing. -/
theorem C2_channels_for_item_shape (t : TaggedNewsItem) :
    (channels_for_item t).length = 1 + 1 + t.categories.length + t.tickers.length
    ∧ (∀ s ∈ channels_for_item t,
        s = ALL ∨ s = urgency_channel t.urgency.value
        ∨ (∃ c ∈ t.categories, s = category_channel c.value)
        ∨ (∃ tk ∈ t.tickers, s = ticker_channel tk))
    ∧ (t.categories.Nodup → (t.tickers.map pyUpper).Nodup →
        (channels_for_item t).Nodup) := by
  refine ⟨?_, ?_, ?_⟩
  · simp [channels_for_item]
    omega
  · intro s hs
    simp only [channels_for_item, List.mem_append, List.mem_cons,
      List.not_mem_nil, or_false, List.mem_map] at hs
    rcases hs with ((rfl | rfl) | ⟨c, hc, rfl⟩) | ⟨tk, htk, rfl⟩
    · exact Or.inl rfl
    · exact Or.inr (Or.inl rfl)
    · exact Or.inr (Or.inr (Or.inl ⟨c, hc, rfl⟩))
    · exact Or.inr (Or.inr (Or.inr ⟨tk, htk, rfl⟩))
  · intro hc ht
    have hcat : (t.categories.map (fun c => category_channel c.value)).Nodup := by
      refine hc.map ?_
      intro a b hab
      exact Category.value_injective a b (str_append_left_cancel hab)
    have htick : (t.tickers.map ticker_channel).Nodup := by
      have heq : t.tickers.map ticker_channel
          = (t.tickers.map pyUpper).map (fun u => "news:ticker:" ++ u) := by
        simp [List.map_map, ticker_channel, Function.comp]
      rw [heq]
      refine ht.map ?_
      intro a b hab
      exact str_append_left_cancel hab
    have hct : ∀ x, x ∈ t.categories.map (fun c => category_channel c.value) →
        x ∈ t.tickers.map ticker_channel → False := by
      intro x hx1 hx2
      rcases List.mem_map.mp hx1 with ⟨c, _, rfl⟩
      rcases List.mem_map.mp hx2 with ⟨tk, _, htk⟩
      exact idx5_ne (by rw [idx5_ticker, idx5_category]; decide) htk
    have happ : (t.categories.map (fun c => category_channel c.value)
        ++ t.tickers.map ticker_channel).Nodup :=
      List.Nodup.append hcat htick (fun x hx1 hx2 => hct x hx1 hx2)
    have hshape : channels_for_item t
        = ALL :: urgency_channel t.urgency.value ::
          (t.categories.map (fun c => category_channel c.value)
            ++ t.tickers.map ticker_channel) := by
      simp [channels_for_item]
    rw [hshape]
    refine List.nodup_cons.mpr ⟨?_, List.nodup_cons.mpr ⟨?_, happ⟩⟩
    · simp only [List.mem_cons, List.mem_append, List.mem_map]
      rintro (h | (⟨c, _, h⟩ | ⟨tk, _, h⟩))
      · exact idx5_ne (by rw [idx5_all, idx5_urgency]; decide) h
      · exact idx5_ne (by rw [idx5_category, idx5_all]; decide) h.symm
      · exact idx5_ne (by rw [idx5_ticker, idx5_all]; decide) h.symm
    · simp only [List.mem_append, List.mem_map]
      rintro (⟨c, _, h⟩ | ⟨tk, _, h⟩)
      · exact idx5_ne (by rw [idx5_category, idx5_urgency]; decide) h.symm
      · exact idx5_ne (by rw [idx5_ticker, idx5_urgency]; decide) h.symm

/-- C2 witness: the amended theorem evaluated at a concrete item with one
category and two case-distinct tickers. -/
theorem C2_witness :
    (channels_for_item c2GoodItem).length
      = 1 + 1 + c2GoodItem.categories.length + c2GoodItem.tickers.length
    ∧ (channels_for_item c2GoodItem).Nodup :=
  ⟨(C2_channels_for_item_shape c2GoodItem).1,
   (C2_channels_for_item_shape c2GoodItem).2.2 (by decide) (by decide)⟩

/-- C3 counterexample: the channel names produced by the code are not `all`,
`urgency:{level}`, `ticker:{SYMBOL}`: every name carries a `news:` prefix. -/
theorem C3_counterexample :
    ALL ≠ "all"
    ∧ urgency_channel "breaking" ≠ "urgency:breaking"
    ∧ ticker_channel "btc" = "news:ticker:BTC"
    ∧ ticker_channel "btc" ≠ "ticker:BTC" := by
  refine ⟨by decide, by decide, by decide, by decide⟩

/-- C3 (amended): channel naming is bit-exact with a `news:` prefix: the
global channel is `news:all`, urgency channels are `news:urgency:{level}`
for the four fixed levels, category channels are `news:category:{slug}`, and
ticker channels are `news:ticker:{SYMBOL}` with the symbol upper-cased
regardless of input case (case-insensitive in the input symbol). -/
theorem C3_channel_naming (u c tk tk' : String) :
    ALL = "news:all"
    ∧ urgency_channel u = "news:urgency:" ++ u
    ∧ category_channel c = "news:category:" ++ c
    ∧ ticker_channel tk = "news:ticker:" ++ pyUpper tk
    ∧ (pyUpper tk = pyUpper tk' → ticker_channel tk = ticker_channel tk')
    ∧ urgency_channel Urgency.breaking.value = "news:urgency:breaking"
    ∧ urgency_channel Urgency.high.value = "news:urgency:high"
    ∧ urgency_channel Urgency.normal.value = "news:urgency:normal"
    ∧ urgency_channel Urgency.low.value = "news:urgency:low" := by
  refine ⟨rfl, rfl, rfl, rfl, ?_, by decide, by decide, by decide, by decide⟩
  intro h
  simp [ticker_channel, h]

/-- C3 witness: the amended naming theorem at concrete inputs; in particular
`bTc` and `BTC` yield the same ticker channel. -/
theorem C3_witness :
    ticker_channel "bTc" = ticker_channel "BTC"
    ∧ urgency_channel "high" = "news:urgency:" ++ "high" :=
  ⟨(C3_channel_naming "high" "crypto" "bTc" "BTC").2.2.2.2.1 (by decide),
   (C3_channel_naming "high" "crypto" "bTc" "BTC").2.1⟩

/-- An item identical to `c2GoodItem` except for an out-of-range sentiment
score. -/
def c8BadItem : TaggedNewsItem := { c2GoodItem with sentiment_score := 2 }

/-- C8: every successfully constructed `TaggedNewsItem` has
`sentiment_score` in `[-1, 1]`, and construction with a score outside this
range fails with a validation error instead of producing an item. -/
theorem C8_sentiment_score_bounds :
    (∀ x y : TaggedNewsItem, TaggedNewsItem.validate x = Except.ok y →
      -1 ≤ y.sentiment_score ∧ y.sentiment_score ≤ 1)
    ∧ (∀ x : TaggedNewsItem,
        (x.sentiment_score < -1 ∨ 1 < x.sentiment_score) →
        ∃ m, TaggedNewsItem.validate x = Except.error m) := by
  constructor
  · intro x y h
    by_cases h1 : x.id = ""
    · simp [TaggedNewsItem.validate, h1] at h
    · by_cases h2 : -1 ≤ x.sentiment_score ∧ x.sentiment_score ≤ 1
      · have hxy : x = y := by
          simpa [TaggedNewsItem.validate, h1, h2] using h
        exact hxy ▸ h2
      · simp [TaggedNewsItem.validate, h1, h2] at h
  · intro x hx
    have h2 : ¬ (-1 ≤ x.sentiment_score ∧ x.sentiment_score ≤ 1) := by
      rcases hx with hlt | hgt
      · exact fun hc => absurd hc.1 (not_le.mpr hlt)
      · exact fun hc => absurd hc.2 (not_le.mpr hgt)
    by_cases h1 : x.id = ""
    · exact ⟨"id must be non-empty string", by simp [TaggedNewsItem.validate, h1]⟩
    · refine ⟨"sentiment_score must be in range [-1.0, 1.0], got "
        ++ toString x.sentiment_score, ?_⟩
      simp [TaggedNewsItem.validate, h1, h2]

/-- C8 witness: the bound holds for the concrete valid item, and the
concrete out-of-range item (score 2) is rejected. -/
theorem C8_witness :
    (-1 ≤ c2GoodItem.sentiment_score ∧ c2GoodItem.sentiment_score ≤ 1)
    ∧ ∃ m, TaggedNewsItem.validate c8BadItem = Except.error m :=
  ⟨C8_sentiment_score_bounds.1 c2GoodItem c2GoodItem (by
      unfold TaggedNewsItem.validate
      rw [if_neg (by decide), if_neg (not_not_intro (by norm_num [c2GoodItem]))]),
   C8_sentiment_score_bounds.2 c8BadItem (Or.inr (by norm_num [c8BadItem, c2GoodItem]))⟩

/-- The frozen dataclass `RawNewsItem` from `models/news.py`. -/
structure RawNewsItem where
  id : String
  timestamp : PyDateTime
  headline : String
  body : String
  source_type : SourceType
  source_handle : String
  source_description : String
  source_url : String
  source_avatar : String
  media_url : String
  pre_tagged_tickers : List String
  ticker_reasons : List String
  pre_tagged_categories : List String
  pre_highlighted_keywords : List String
  is_priority : Bool
  is_narrative : Bool
  urgency_tags : List String
  economic_event_type : String
  raw_data : JValue

/-- `RawNewsItem.__post_init__`: required-field validation at construction. -/
def RawNewsItem.validate (x : RawNewsItem) : Except String RawNewsItem :=
  if x.id = "" then
    .error "id must be non-empty string"
  else if x.headline = "" then
    .error "headline must be non-empty string"
  else if x.timestamp.tz = Option.none then
    .error "timestamp must be timezone-aware"
  else
    .ok x

/-- `TaggerConfig` from `news_streamer/config.py`. -/
structure TaggerConfig where
  use_dbnews_hints : Bool

/-- `NewsTagger._extract_tickers`: seed a set from the DBNews pre-tagged
ticker hints (when enabled), sort, and cap at 20. -/
def NewsTagger_extract_tickers (config : TaggerConfig) (news : RawNewsItem) :
    List String :=
  let tickers : List String :=
    if config.use_dbnews_hints && !news.pre_tagged_tickers.isEmpty then
      news.pre_tagged_tickers.dedup
    else []
  let sorted_tickers := tickers.insertionSort (· ≤ ·)
  if sorted_tickers.length > 20 then sorted_tickers.take 20 else sorted_tickers

/-- `NewsTagger._determine_urgency`: HOT tag, then priority flag, then the
(redundant) narrative branch; note there is no WARM branch here. -/
def NewsTagger_determine_urgency (news : RawNewsItem) : Urgency :=
  if "HOT" ∈ news.urgency_tags then Urgency.breaking
  else if news.is_priority then Urgency.high
  else if news.is_narrative then Urgency.normal
  else Urgency.normal

/-- Python dict lookup `raw.get(k, default)`. -/
def pyGet (kvs : List (String × JValue)) (k : String) (d : JValue) : JValue :=
  match kvs.find? (fun p => p.1 == k) with
  | some p => p.2
  | Option.none => d

/-- Python `x in tags` for a string `x` and a list value `tags`
(non-list values are dead branches of the callers modelled here). -/
def jlistContainsStr (v : JValue) (s : String) : Bool :=
  match v with
  | .list xs => xs.any (fun x => match x with | .str t => t == s | _ => false)
  | _ => false

/-- `determine_urgency` from `dbnews_client/normalizer.py` (a standalone
function, not called by the pipeline): HOT, then isHighlight, then WARM. -/
def determine_urgency (raw : List (String × JValue)) : Urgency :=
  let tags := pyGet raw "tags" (.list [])
  let is_highlight := pyGet raw "isHighlight" (.bool false)
  if jlistContainsStr tags "HOT" then Urgency.breaking
  else if is_highlight.truthy then Urgency.high
  else if jlistContainsStr tags "WARM" then Urgency.high
  else Urgency.normal

/-- The `ReconnectionState` dataclass from `core/types.py`. The
`current_delay` field is declared with `field(default=1.0, init=False)`, so a
fresh instance starts at the literal 1.0 whatever `initial_delay_seconds`
was passed. -/
structure ReconnectionState where
  initial_delay_seconds : ℚ := 1
  max_delay_seconds : ℚ := 60
  multiplier : ℚ := 2
  jitter_factor : ℚ := 1/10
  current_delay : ℚ := 1
  attempt_count : Nat := 0
deriving DecidableEq

/-- Dataclass construction `ReconnectionState(i, mx, mult, j)`:
`current_delay` and `attempt_count` are not settable (`init=False`) and take
their literal defaults. -/
def mkReconnectionState (i mx mult j : ℚ) : ReconnectionState :=
  { initial_delay_seconds := i, max_delay_seconds := mx,
    multiplier := mult, jitter_factor := j }

/-- `ReconnectionState.next_delay`. The random jitter sample
(`random.uniform(-jitter, jitter)`) is passed in as `r`; the returned delay
is floored at 0.1 and the state is updated multiplicatively with a cap. -/
def ReconnectionState.next_delay (s : ReconnectionState) (r : ℚ) :
    ℚ × ReconnectionState :=
  (max (1/10) (s.current_delay + r),
   { s with
      current_delay := min (s.current_delay * s.multiplier) s.max_delay_seconds,
      attempt_count := s.attempt_count + 1 })

/-- `ReconnectionState.reset`. -/
def ReconnectionState.reset (s : ReconnectionState) : ReconnectionState :=
  { s with current_delay := s.initial_delay_seconds, attempt_count := 0 }

/-- One call in a `next_delay`/`reset` call sequence. -/
inductive BackoffOp where
  | next
  | reset
deriving DecidableEq

/-- Apply one call to the state (the state update of `next_delay` does not
depend on the jitter sample). -/
def applyBackoffOp (s : ReconnectionState) : BackoffOp → ReconnectionState
  | .next => (s.next_delay 0).2
  | .reset => s.reset

/-- Run a sequence of `next_delay`/`reset` calls. -/
def runBackoff (s : ReconnectionState) (ops : List BackoffOp) : ReconnectionState :=
  ops.foldl applyBackoffOp s

theorem applyBackoffOp_params (s : ReconnectionState) (op : BackoffOp) :
    (applyBackoffOp s op).initial_delay_seconds = s.initial_delay_seconds
    ∧ (applyBackoffOp s op).max_delay_seconds = s.max_delay_seconds
    ∧ (applyBackoffOp s op).multiplier = s.multiplier := by
  cases op <;> exact ⟨rfl, rfl, rfl⟩

theorem runBackoff_inv (ops : List BackoffOp) :
    ∀ s : ReconnectionState,
      0 ≤ s.initial_delay_seconds →
      s.initial_delay_seconds ≤ s.max_delay_seconds →
      1 ≤ s.multiplier →
      s.initial_delay_seconds ≤ s.current_delay →
      s.current_delay ≤ s.max_delay_seconds →
      ((runBackoff s ops).initial_delay_seconds = s.initial_delay_seconds
        ∧ (runBackoff s ops).max_delay_seconds = s.max_delay_seconds
        ∧ s.initial_delay_seconds ≤ (runBackoff s ops).current_delay
        ∧ (runBackoff s ops).current_delay ≤ s.max_delay_seconds) := by
  induction ops with
  | nil => intro s _ _ _ hlo hhi; exact ⟨rfl, rfl, hlo, hhi⟩
  | cons op rest ih =>
    intro s h0 him hm hlo hhi
    have hcur0 : 0 ≤ s.current_delay := le_trans h0 hlo
    have hstep : s.initial_delay_seconds ≤ (applyBackoffOp s op).current_delay
        ∧ (applyBackoffOp s op).current_delay ≤ s.max_delay_seconds := by
      cases op with
      | next =>
        constructor
        · exact le_min (le_trans hlo (le_mul_of_one_le_right hcur0 hm)) him
        · exact min_le_right _ _
      | reset => exact ⟨le_refl _, him⟩
    have hp := applyBackoffOp_params s op
    have := ih (applyBackoffOp s op)
      (by rw [hp.1]; exact h0)
      (by rw [hp.1, hp.2.1]; exact him)
      (by rw [hp.2.2]; exact hm)
      (by rw [hp.1]; exact hstep.1)
      (by rw [hp.2.1]; exact hstep.2)
    refine ⟨?_, ?_, ?_, ?_⟩
    · rw [show runBackoff s (op :: rest) = runBackoff (applyBackoffOp s op) rest from rfl,
        this.1, hp.1]
    · rw [show runBackoff s (op :: rest) = runBackoff (applyBackoffOp s op) rest from rfl,
        this.2.1, hp.2.1]
    · rw [show runBackoff s (op :: rest) = runBackoff (applyBackoffOp s op) rest from rfl]
      calc s.initial_delay_seconds
          = (applyBackoffOp s op).initial_delay_seconds := hp.1.symm
        _ ≤ (runBackoff (applyBackoffOp s op) rest).current_delay := this.2.2.1
    · rw [show runBackoff s (op :: rest) = runBackoff (applyBackoffOp s op) rest from rfl]
      calc (runBackoff (applyBackoffOp s op) rest).current_delay
          ≤ (applyBackoffOp s op).max_delay_seconds := this.2.2.2
        _ = s.max_delay_seconds := hp.2.1

/-- C4 counterexample: the claim fails as stated for arbitrary
configurations. A state constructed with initial delay 5 starts with
`current_delay = 1`, below `[initial_delay, max_delay]`; and with a
multiplier below 1 a `next_delay()` call drives `current_delay` below
`initial_delay`. -/
theorem C4_counterexample :
    (mkReconnectionState 5 60 2 (1/10)).current_delay = 1
    ∧ ¬ ((mkReconnectionState 5 60 2 (1/10)).initial_delay_seconds
          ≤ (mkReconnectionState 5 60 2 (1/10)).current_delay)
    ∧ (runBackoff (mkReconnectionState 1 60 (1/2) (1/10)) [BackoffOp.next]).current_delay
        < (mkReconnectionState 1 60 (1/2) (1/10)).initial_delay_seconds := by
  refine ⟨rfl, by norm_num [mkReconnectionState], ?_⟩
  show min (1 * (1/2) : ℚ) 60 < 1
  norm_num

/-- C4 (amended): for every `ReconnectionState` whose configuration
satisfies `0 ≤ initial_delay ≤ max_delay` and `multiplier ≥ 1`, and whose
`current_delay` lies in `[initial_delay, max_delay]` (as it does after
`reset()`, and on a fresh default-constructed state where both the initial
and the current delay are 1.0), any sequence of `next_delay()`/`reset()`
calls keeps `current_delay` within `[initial_delay, max_delay]`; each
`next_delay()` sets `current_delay` to `current_delay * multiplier` capped
at `max_delay` (with the defaults it never exceeds 60.0), and `reset()`
restores `current_delay = initial_delay` and `attempt_count = 0`. -/
theorem C4_backoff_invariant (s : ReconnectionState) (ops : List BackoffOp)
    (h0 : 0 ≤ s.initial_delay_seconds)
    (him : s.initial_delay_seconds ≤ s.max_delay_seconds)
    (hm : 1 ≤ s.multiplier)
    (hlo : s.initial_delay_seconds ≤ s.current_delay)
    (hhi : s.current_delay ≤ s.max_delay_seconds) :
    (s.initial_delay_seconds ≤ (runBackoff s ops).current_delay
      ∧ (runBackoff s ops).current_delay ≤ s.max_delay_seconds)
    ∧ (∀ r : ℚ, (s.next_delay r).2.current_delay
        = min (s.current_delay * s.multiplier) s.max_delay_seconds)
    ∧ (∀ r : ℚ, (1/10 : ℚ) ≤ (s.next_delay r).1)
    ∧ s.reset.current_delay = s.initial_delay_seconds
    ∧ s.reset.attempt_count = 0 := by
  have h := runBackoff_inv ops s h0 him hm hlo hhi
  exact ⟨⟨h.2.2.1, h.2.2.2⟩, fun r => rfl, fun r => le_max_left _ _, rfl, rfl⟩

/-- C4 witness: the amended theorem at the default configuration (initial
1.0, max 60.0, multiplier 2.0) after three `next_delay()` calls and a
`reset()` mid-sequence. -/
theorem C4_witness :
    ((1 : ℚ) ≤ (runBackoff {} [BackoffOp.next, BackoffOp.next, BackoffOp.reset,
        BackoffOp.next]).current_delay
      ∧ (runBackoff {} [BackoffOp.next, BackoffOp.next, BackoffOp.reset,
        BackoffOp.next]).current_delay ≤ (60 : ℚ))
    ∧ (ReconnectionState.reset {}).current_delay = (1 : ℚ)
    ∧ (ReconnectionState.reset {}).attempt_count = 0 := by
  have h := C4_backoff_invariant {}
    [BackoffOp.next, BackoffOp.next, BackoffOp.reset, BackoffOp.next]
    (by norm_num) (by norm_num) (by norm_num) (by norm_num) (by norm_num)
  exact ⟨h.1, h.2.2.2.1, h.2.2.2.2⟩

/-- A raw item carrying only the WARM urgency hint (not priority). -/
def c5WarmItem : RawNewsItem :=
  { id := "news-warm", timestamp := sampleDT,
    headline := "Elevated but not breaking", body := "",
    source_type := SourceType.news_wire, source_handle := "wire",
    source_description := "", source_url := "", source_avatar := "",
    media_url := "", pre_tagged_tickers := [], ticker_reasons := [],
    pre_tagged_categories := [], pre_highlighted_keywords := [],
    is_priority := false, is_narrative := false, urgency_tags := ["WARM"],
    economic_event_type := "", raw_data := JValue.dict [] }

/-- A raw item carrying the HOT urgency hint. -/
def c5HotItem : RawNewsItem :=
  { c5WarmItem with id := "news-hot", urgency_tags := ["HOT"] }

/-- A raw item with the priority flag and no urgency hints. -/
def c5PriorityItem : RawNewsItem :=
  { c5WarmItem with id := "news-prio", urgency_tags := [], is_priority := true }

/-- C5 counterexample: the tagging engine maps an item whose only urgency
hint is WARM (priority flag unset) to `normal`, not `high` as the claim
states: `NewsTagger._determine_urgency` has no WARM branch. -/
theorem C5_counterexample :
    c5WarmItem.urgency_tags = ["WARM"]
    ∧ c5WarmItem.is_priority = false
    ∧ NewsTagger_determine_urgency c5WarmItem = Urgency.normal
    ∧ Urgency.normal ≠ Urgency.high := by
  refine ⟨rfl, rfl, by decide, by decide⟩

/-- C5 (amended): the tagging engine (`NewsTagger._determine_urgency`)
derives urgency as breaking when HOT is among the urgency tag hints, else
high when the priority flag is set, else normal — WARM hints have no effect
there. The standalone normalizer-level `determine_urgency` (not called by
the pipeline) does additionally map WARM to high after the highlight flag. -/
theorem C5_urgency_rules :
    (∀ news : RawNewsItem,
      ("HOT" ∈ news.urgency_tags → NewsTagger_determine_urgency news = Urgency.breaking)
      ∧ ("HOT" ∉ news.urgency_tags → news.is_priority = true →
          NewsTagger_determine_urgency news = Urgency.high)
      ∧ ("HOT" ∉ news.urgency_tags → news.is_priority = false →
          NewsTagger_determine_urgency news = Urgency.normal))
    ∧ (∀ raw : List (String × JValue),
      (jlistContainsStr (pyGet raw "tags" (.list [])) "HOT" = true →
          determine_urgency raw = Urgency.breaking)
      ∧ (jlistContainsStr (pyGet raw "tags" (.list [])) "HOT" = false →
          (pyGet raw "isHighlight" (.bool false)).truthy = true →
          determine_urgency raw = Urgency.high)
      ∧ (jlistContainsStr (pyGet raw "tags" (.list [])) "HOT" = false →
          (pyGet raw "isHighlight" (.bool false)).truthy = false →
          jlistContainsStr (pyGet raw "tags" (.list [])) "WARM" = true →
          determine_urgency raw = Urgency.high)
      ∧ (jlistContainsStr (pyGet raw "tags" (.list [])) "HOT" = false →
          (pyGet raw "isHighlight" (.bool false)).truthy = false →
          jlistContainsStr (pyGet raw "tags" (.list [])) "WARM" = false →
          determine_urgency raw = Urgency.normal)) := by
  constructor
  · intro news
    refine ⟨?_, ?_, ?_⟩
    · intro h
      simp [NewsTagger_determine_urgency, h]
    · intro h hp
      simp [NewsTagger_determine_urgency, h, hp]
    · intro h hp
      by_cases hn : news.is_narrative <;>
        simp [NewsTagger_determine_urgency, h, hp, hn]
  · intro raw
    refine ⟨?_, ?_, ?_, ?_⟩
    · intro h
      simp [determine_urgency, h]
    · intro h hh
      simp [determine_urgency, h, hh]
    · intro h hh hw
      simp [determine_urgency, h, hh, hw]
    · intro h hh hw
      simp [determine_urgency, h, hh, hw]

/-- C5 witness: the amended rules evaluated on concrete items: a HOT item is
breaking, a priority item is high, the WARM-only item is normal for the
tagging engine, and the unused normalizer function maps the same WARM record
to high. -/
theorem C5_witness :
    NewsTagger_determine_urgency c5HotItem = Urgency.breaking
    ∧ NewsTagger_determine_urgency c5PriorityItem = Urgency.high
    ∧ NewsTagger_determine_urgency c5WarmItem = Urgency.normal
    ∧ determine_urgency [("tags", JValue.list [JValue.str "WARM"])] = Urgency.high :=
  ⟨(C5_urgency_rules.1 c5HotItem).1 (by decide),
   (C5_urgency_rules.1 c5PriorityItem).2.1 (by decide) (by decide),
   (C5_urgency_rules.1 c5WarmItem).2.2 (by decide) (by decide),
   (C5_urgency_rules.2 [("tags", JValue.list [JValue.str "WARM"])]).2.2.1
     (by decide) (by decide) (by decide)⟩

/-- The streaming tagger configuration (`Settings.tagger` always enables
DBNews hints). -/
def cfgHints : TaggerConfig := { use_dbnews_hints := true }

/-- A raw item whose only pre-tagged ticker hint is lower-case. -/
def c6LowerItem : RawNewsItem :=
  { c5WarmItem with
      id := "news-btc"
      urgency_tags := []
      pre_tagged_tickers := ["btc"] }

/-- A raw item with duplicated, unsorted ticker hints. -/
def c6MixedItem : RawNewsItem :=
  { c5WarmItem with
      id := "news-mixed"
      urgency_tags := []
      pre_tagged_tickers := ["ETH", "BTC", "ETH"] }

/-- C6 counterexample: ticker extraction does not case-normalize. A single
lower-case hint `btc` comes out as `btc`, not `BTC`. -/
theorem C6_counterexample :
    NewsTagger_extract_tickers cfgHints c6LowerItem = ["btc"]
    ∧ (["btc"] : List String) ≠ ["BTC"] := by
  refine ⟨rfl, by decide⟩

/-- C6 (amended): with DBNews hints enabled, the tickers produced by
`NewsTagger._extract_tickers` are exactly the pre-tagged ticker hints
deduplicated, sorted, and capped at 20 entries — with their original case
preserved (no case normalization). With hints disabled the result is empty. -/
theorem C6_extract_tickers_spec (config : TaggerConfig) (news : RawNewsItem) :
    (config.use_dbnews_hints = true →
      ((NewsTagger_extract_tickers config news).Sorted (· ≤ ·)
      ∧ (NewsTagger_extract_tickers config news).Nodup
      ∧ (NewsTagger_extract_tickers config news).length ≤ 20
      ∧ (∀ t ∈ NewsTagger_extract_tickers config news, t ∈ news.pre_tagged_tickers)
      ∧ (news.pre_tagged_tickers.dedup.length ≤ 20 →
          ∀ t ∈ news.pre_tagged_tickers,
            t ∈ NewsTagger_extract_tickers config news)))
    ∧ (config.use_dbnews_hints = false →
        NewsTagger_extract_tickers config news = []) := by
  constructor
  · intro hcfg
    by_cases hni : news.pre_tagged_tickers.isEmpty = true
    · have hl : news.pre_tagged_tickers = [] := by
        cases hn : news.pre_tagged_tickers with
        | nil => rfl
        | cons a as => rw [hn] at hni; simp [List.isEmpty] at hni
      have hres : NewsTagger_extract_tickers config news = [] := by
        simp [NewsTagger_extract_tickers, hcfg, hni]
      rw [hres]
      refine ⟨by simp, by simp, by simp, by simp, ?_⟩
      intro _ t ht
      rw [hl] at ht
      cases ht
    · have hres : NewsTagger_extract_tickers config news =
          (if (news.pre_tagged_tickers.dedup.insertionSort (· ≤ ·)).length > 20
           then (news.pre_tagged_tickers.dedup.insertionSort (· ≤ ·)).take 20
           else news.pre_tagged_tickers.dedup.insertionSort (· ≤ ·)) := by
        simp [NewsTagger_extract_tickers, hcfg, hni]
      have hperm : List.Perm (news.pre_tagged_tickers.dedup.insertionSort (· ≤ ·))
          news.pre_tagged_tickers.dedup := List.perm_insertionSort _ _
      have hsort : (news.pre_tagged_tickers.dedup.insertionSort (· ≤ ·)).Sorted (· ≤ ·) :=
        List.sorted_insertionSort _ _
      have hnd : (news.pre_tagged_tickers.dedup.insertionSort (· ≤ ·)).Nodup :=
        hperm.nodup_iff.mpr (List.nodup_dedup _)
      by_cases hlen : (news.pre_tagged_tickers.dedup.insertionSort (· ≤ ·)).length > 20
      · rw [hres, if_pos hlen]
        refine ⟨?_, ?_, ?_, ?_, ?_⟩
        · exact List.Pairwise.sublist (List.take_sublist _ _) hsort
        · exact List.Nodup.sublist (List.take_sublist _ _) hnd
        · simp [List.length_take]
        · intro t ht
          have := (List.take_sublist 20 _).subset ht
          exact List.mem_dedup.mp (hperm.mem_iff.mp this)
        · intro h20
          exfalso
          rw [hperm.length_eq] at hlen
          omega
      · rw [hres, if_neg hlen]
        refine ⟨hsort, hnd, by omega, ?_, ?_⟩
        · intro t ht
          exact List.mem_dedup.mp (hperm.mem_iff.mp ht)
        · intro _ t ht
          exact hperm.mem_iff.mpr (List.mem_dedup.mpr ht)
  · intro hcfg
    simp [NewsTagger_extract_tickers, hcfg]

/-- C6 witness: the amended theorem evaluated on concrete duplicated,
unsorted hints; the extraction also concretely equals the dedup-sort. -/
theorem C6_witness :
    (NewsTagger_extract_tickers cfgHints c6MixedItem).Sorted (· ≤ ·)
    ∧ (NewsTagger_extract_tickers cfgHints c6MixedItem).Nodup
    ∧ (NewsTagger_extract_tickers cfgHints c6MixedItem).length ≤ 20
    ∧ "BTC" ∈ NewsTagger_extract_tickers cfgHints c6MixedItem :=
  ⟨((C6_extract_tickers_spec cfgHints c6MixedItem).1 rfl).1,
   ((C6_extract_tickers_spec cfgHints c6MixedItem).1 rfl).2.1,
   ((C6_extract_tickers_spec cfgHints c6MixedItem).1 rfl).2.2.1,
   ((C6_extract_tickers_spec cfgHints c6MixedItem).1 rfl).2.2.2.2
     (by decide) "BTC" (by decide)⟩

/-- Python whitespace characters stripped by `str.strip()` (ASCII range). -/
def pyIsSpace (c : Char) : Bool :=
  c == ' ' || c == '\t' || c == '\n' || c == '\r'
    || c == Char.ofNat 11 || c == Char.ofNat 12

/-- `str.strip()` on a character list. -/
def pyStripList (cs : List Char) : List Char :=
  ((cs.dropWhile pyIsSpace).reverse.dropWhile pyIsSpace).reverse

/-- Python `str.strip()`. -/
def pyStrip (s : String) : String := String.mk (pyStripList s.data)

/-- Python `str.lower()` (ASCII range). -/
def pyLower (s : String) : String := String.mk (s.data.map Char.toLower)

/-- A sentence-ending character of `SENTENCE_END_PATTERN = [.!?]\s+`. -/
def isSentEnd (c : Char) : Bool := c == '.' || c == '!' || c == '?'

/-- `SENTENCE_END_PATTERN.search(text).end()`: the end position of the
leftmost match of a sentence-end character followed by a maximal nonempty
whitespace run, `none` when the pattern does not occur. -/
def sentenceMatchEnd : List Char → Option Nat
  | [] => Option.none
  | c :: rest =>
    if isSentEnd c then
      match rest with
      | [] => Option.none
      | d :: _ =>
        if pyIsSpace d then some (1 + (rest.takeWhile pyIsSpace).length)
        else (sentenceMatchEnd rest).map (· + 1)
    else (sentenceMatchEnd rest).map (· + 1)

/-- `MAX_HEADLINE_LENGTH` from `dbnews_client/normalizer.py`. -/
def MAX_HEADLINE_LENGTH : Nat := 280

/-- `extract_headline` from `dbnews_client/normalizer.py`: short text is used
stripped and verbatim, else the first sentence when it fits, else the first
`MAX - 3` characters (right-stripped by `.strip()`) plus an ellipsis. -/
def extract_headline (text : String) : String :=
  if text = "" then ""
  else
    let t := pyStrip text
    if t.length ≤ MAX_HEADLINE_LENGTH then t
    else
      let fallback := String.mk (pyStripList (t.data.take (MAX_HEADLINE_LENGTH - 3))) ++ "..."
      match sentenceMatchEnd t.data with
      | some e =>
        let first_sentence := String.mk (pyStripList (t.data.take e))
        if first_sentence.length ≤ MAX_HEADLINE_LENGTH then first_sentence
        else fallback
      | Option.none => fallback

/-- Python exceptions raised by the normalizer pipeline: the repository's
`ValidationError` (message and `field` context; the `value` context is not
modelled), and the builtin `AttributeError`/`ValueError`. -/
inductive PyExc where
  | validationError (message : String) (field : Option String)
  | attributeError (attr : String)
  | valueError (message : String)
deriving DecidableEq

/-- `type(v).__name__` for a `JValue`. -/
def JValue.typeName : JValue → String
  | .none => "NoneType"
  | .bool _ => "bool"
  | .int _ => "int"
  | .str _ => "str"
  | .list _ => "list"
  | .dict _ => "dict"

/-- Python `str(v)` (container renderings abbreviated; no claim observes
them). -/
def pyStr : JValue → String
  | .none => "None"
  | .bool b => if b then "True" else "False"
  | .int n => toString n
  | .str s => s
  | .list _ => "[list]"
  | .dict _ => "[dict]"

/-- A loosely-typed wire value read into a field the dataclass declares as
`str`; Python stores the value as-is, this typed model renders it. -/
def asStrD (v : JValue) : String :=
  match v with
  | .str s => s
  | v => pyStr v

/-- `_convert_to_string` from `dbnews_client/normalizer.py` (`json.dumps` of
a reason-less dict abbreviated like `pyStr`). -/
def convert_to_string (v : JValue) : String :=
  match v with
  | .str s => s
  | .dict kvs =>
    (match kvs.find? (fun p => p.1 == "reason") with
     | some p => pyStr p.2
     | Option.none => pyStr (.dict kvs))
  | v => pyStr v

/-- `tuple(v) if isinstance(v, list) else ()`, at the dataclass's declared
`tuple[str, ...]` element type. -/
def jlistToStrings (v : JValue) : List String :=
  match v with
  | .list xs => xs.map asStrD
  | _ => []

/-- `tuple(_convert_to_string(r) for r in v) if isinstance(v, list) else ()`. -/
def jlistConvert (v : JValue) : List String :=
  match v with
  | .list xs => xs.map convert_to_string
  | _ => []

/-- `SourceType.from_string`: compare lower-cased member values in
declaration order, defaulting to OTHER. -/
def SourceType.from_string (value : String) : SourceType :=
  if pyLower "Twitter" = pyLower value then .twitter
  else if pyLower "Telegram" = pyLower value then .telegram
  else if pyLower "RSS" = pyLower value then .rss
  else if pyLower "News" = pyLower value then .news_wire
  else if pyLower "Other" = pyLower value then .other
  else .other

/-- Digit parsing helper for the timestamp model: read exactly `w` digits. -/
def readDigits (cs : List Char) (w : Nat) : Option (Nat × List Char) :=
  let d := cs.take w
  if d.length = w && d.all Char.isDigit then
    some (d.foldl (fun acc c => acc * 10 + (c.toNat - 48)) 0, cs.drop w)
  else Option.none

/-- Consume one expected character. -/
def expectChar (cs : List Char) (c : Char) : Option (List Char) :=
  match cs with
  | d :: rest => if d = c then some rest else Option.none
  | [] => Option.none

/-- Gregorian leap-year rule. -/
def isLeapYear (y : Nat) : Bool := (y % 4 == 0 && y % 100 != 0) || (y % 400 == 0)

/-- Days in a month. -/
def daysInMonth (y m : Nat) : Nat :=
  if m = 2 then (if isLeapYear y then 29 else 28)
  else if m = 4 ∨ m = 6 ∨ m = 9 ∨ m = 11 then 30
  else 31

/-- Time-of-day part `HH[:MM[:SS[.ffffff]]]` of the ISO format. -/
def parseTimePart (cs : List Char) : Option (Nat × Nat × Nat × Nat × List Char) := do
  let (h, r1) ← readDigits cs 2
  guard (h ≤ 23)
  match expectChar r1 ':' with
  | Option.none => return (h, 0, 0, 0, r1)
  | some r2 => do
    let (m, r3) ← readDigits r2 2
    guard (m ≤ 59)
    match expectChar r3 ':' with
    | Option.none => return (h, m, 0, 0, r3)
    | some r4 => do
      let (sec, r5) ← readDigits r4 2
      guard (sec ≤ 59)
      match expectChar r5 '.' with
      | Option.none => return (h, m, sec, 0, r5)
      | some r6 =>
        let frac := r6.takeWhile Char.isDigit
        if 1 ≤ frac.length && frac.length ≤ 6 then
          let v := frac.foldl (fun acc c => acc * 10 + (c.toNat - 48)) 0
          return (h, m, sec, v * 10 ^ (6 - frac.length), r6.drop frac.length)
        else failure

/-- UTC-offset part `±HH:MM[:SS]` of the ISO format, in seconds. -/
def parseTzPart (cs : List Char) : Option (Option Int) :=
  match cs with
  | [] => some Option.none
  | c :: rest =>
    if c = '+' ∨ c = '-' then do
      let (hh, r1) ← readDigits rest 2
      let r2 ← expectChar r1 ':'
      let (mm, r3) ← readDigits r2 2
      guard (hh ≤ 23 && mm ≤ 59)
      let (ss, r4) ← (match expectChar r3 ':' with
        | some r => do
            let (ss, r') ← readDigits r 2
            guard (ss ≤ 59)
            pure (ss, r')
        | Option.none => pure (0, r3))
      guard r4.isEmpty
      let total : Int := (hh * 3600 + mm * 60 + ss : Nat)
      return some (if c = '-' then -total else total)
    else Option.none

/-- Model of Python's `datetime.fromisoformat` on the core
`YYYY-MM-DD[*HH[:MM[:SS[.ffffff]]]][±HH:MM[:SS]]` format it documents (any
single character as the date/time separator); `none` on malformed input. -/
def fromisoformat (s : String) : Option PyDateTime := do
  let cs := s.data
  let (y, r1) ← readDigits cs 4
  let r2 ← expectChar r1 '-'
  let (mo, r3) ← readDigits r2 2
  let r4 ← expectChar r3 '-'
  let (d, r5) ← readDigits r4 2
  guard (1 ≤ mo && mo ≤ 12)
  guard (1 ≤ d && d ≤ daysInMonth y mo)
  match r5 with
  | [] =>
    return { year := y, month := mo, day := d, hour := 0, minute := 0,
             second := 0, microsecond := 0, tz := Option.none }
  | _ :: rest => do
    let (h, mi, sec, us, r6) ← parseTimePart rest
    let tz ← parseTzPart r6
    return { year := y, month := mo, day := d, hour := h, minute := mi,
             second := sec, microsecond := us, tz := tz }

/-- `ts.endswith("Z")`. -/
def endsWithZ (s : String) : Bool :=
  match s.data.getLast? with
  | some c => c = 'Z'
  | Option.none => false

/-- The Zulu-suffix replacement `ts[:-1] + "+00:00"` done by
`parse_timestamp` before parsing. -/
def zuluAdjust (s : String) : String :=
  if endsWithZ s then String.mk s.data.dropLast ++ "+00:00" else s

/-- `parse_timestamp` from `dbnews_client/normalizer.py`: empty values fail
with a ValidationError on field `ts`; a `Z` suffix becomes `+00:00`; naive
results are given UTC; unparseable strings fail with a ValidationError;
non-string truthy values hit `.endswith` and raise `AttributeError`. -/
def parse_timestamp (ts : JValue) : Except PyExc PyDateTime :=
  if ts.truthy = false then
    .error (.validationError "Timestamp is empty" (some "ts"))
  else
    match ts with
    | .str s =>
      (match fromisoformat (zuluAdjust s) with
       | some dt =>
         .ok (if dt.tz = Option.none then { dt with tz := some 0 } else dt)
       | Option.none =>
         .error (.validationError ("Invalid timestamp format: " ++ s) (some "ts")))
    | _ => .error (.attributeError "endswith")

/-- `validate_dbnews_message` from `dbnews_client/normalizer.py`: requires a
mapping, a truthy `_id`, a text value that is truthy and (being a string)
nonempty after stripping, and a truthy `ts`. A truthy non-string text hits
`.strip()` and raises `AttributeError`. -/
def validate_dbnews_message (raw : JValue) : Except PyExc Unit :=
  match raw with
  | .dict kvs =>
    if (pyGet kvs "_id" JValue.none).truthy = false then
      .error (.validationError "Missing required field: _id" (some "_id"))
    else
      let textv := pyGet kvs "text" (.str "")
      if textv.truthy = false then
        .error (.validationError "Missing or empty required field: text" (some "text"))
      else
        (match textv with
         | .str s =>
           if pyStrip s = "" then
             .error (.validationError "Missing or empty required field: text" (some "text"))
           else if (pyGet kvs "ts" JValue.none).truthy = false then
             .error (.validationError "Missing required field: ts" (some "ts"))
           else .ok ()
         | _ => .error (.attributeError "strip"))
  | _ =>
    .error (.validationError ("Expected dict, got " ++ raw.typeName) (some "message"))

/-- `get_source_handle` from `dbnews_client/normalizer.py`. -/
def get_source_handle (kvs : List (String × JValue)) : Except PyExc String :=
  match pyGet kvs "newsType" (.str "") with
  | .str s =>
    let nt := pyLower s
    if nt = "twitter" then .ok (asStrD (pyGet kvs "tweeterHandle" (.str "")))
    else if nt = "telegram" then .ok (asStrD (pyGet kvs "telegramId" (.str "")))
    else .ok ""
  | _ => .error (.attributeError "lower")

/-- The stripped text `raw.get("text", "").strip()` (validation has already
ensured the value is a string; the default covers the typed model). -/
def textOf (kvs : List (String × JValue)) : String :=
  match pyGet kvs "text" (.str "") with
  | .str s => pyStrip s
  | _ => ""

/-- Dataclass construction runs `__post_init__`; a `ValueError` raised there
surfaces as such. -/
def postInitWrap (x : RawNewsItem) : Except PyExc RawNewsItem :=
  match RawNewsItem.validate x with
  | .ok it => .ok it
  | .error m => .error (.valueError m)

/-- The body of `normalize_news` after validation succeeded on a mapping. -/
def normalize_news_body (kvs : List (String × JValue)) (raw : JValue) :
    Except PyExc RawNewsItem :=
  match parse_timestamp (pyGet kvs "ts" JValue.none) with
  | .error e => .error e
  | .ok tsdt =>
    (match pyGet kvs "newsType" (.str "Other") with
     | .str nts =>
       (match get_source_handle kvs with
        | .error e => .error e
        | .ok handle =>
          postInitWrap
            { id := asStrD (pyGet kvs "_id" JValue.none),
              timestamp := tsdt,
              headline := extract_headline (textOf kvs),
              body := textOf kvs,
              source_type := SourceType.from_string nts,
              source_handle := handle,
              source_description := asStrD (pyGet kvs "description" (.str "")),
              source_url := asStrD (pyGet kvs "link" (.str "")),
              source_avatar := asStrD (pyGet kvs "avatarLink" (.str "")),
              media_url := asStrD (pyGet kvs "img" (.str "")),
              pre_tagged_tickers := jlistToStrings (pyGet kvs "coins" (.list [])),
              ticker_reasons := jlistConvert (pyGet kvs "coinReasons" (.list [])),
              pre_tagged_categories :=
                jlistToStrings (pyGet kvs "filterReasons" (.list [])),
              pre_highlighted_keywords :=
                jlistToStrings (pyGet kvs "highlightedWords" (.list [])),
              is_priority := (pyGet kvs "isHighlight" (.bool false)).truthy,
              is_narrative := (pyGet kvs "isNarrative" (.bool false)).truthy,
              urgency_tags := jlistToStrings (pyGet kvs "tags" (.list [])),
              economic_event_type := asStrD (pyGet kvs "eeType" (.str "")),
              raw_data := raw })
     | _ => .error (.attributeError "lower"))

/-- `normalize_news` from `dbnews_client/normalizer.py`: validate, then
build the `RawNewsItem` (whose `__post_init__` may raise `ValueError`). -/
def normalize_news (raw : JValue) : Except PyExc RawNewsItem :=
  match validate_dbnews_message raw with
  | .error e => .error e
  | .ok _ =>
    (match raw with
     | .dict kvs => normalize_news_body kvs raw
     | _ => .error (.validationError ("Expected dict, got " ++ raw.typeName)
         (some "message")))

theorem length_dropWhile_le (p : Char → Bool) (l : List Char) :
    (l.dropWhile p).length ≤ l.length := by
  induction l with
  | nil => simp [List.dropWhile]
  | cons a as ih =>
    by_cases h : p a
    · simp only [List.dropWhile_cons, h, if_true, List.length_cons]
      omega
    · simp [List.dropWhile_cons, h]

theorem pyStripList_length (cs : List Char) : (pyStripList cs).length ≤ cs.length := by
  unfold pyStripList
  calc (((cs.dropWhile pyIsSpace).reverse.dropWhile pyIsSpace).reverse).length
      = ((cs.dropWhile pyIsSpace).reverse.dropWhile pyIsSpace).length := by
        rw [List.length_reverse]
    _ ≤ (cs.dropWhile pyIsSpace).reverse.length := length_dropWhile_le _ _
    _ = (cs.dropWhile pyIsSpace).length := by rw [List.length_reverse]
    _ ≤ cs.length := length_dropWhile_le _ _

theorem headline_fallback_length (cs : List Char) :
    (String.mk (pyStripList (cs.take (MAX_HEADLINE_LENGTH - 3))) ++ "...").length
      ≤ MAX_HEADLINE_LENGTH := by
  have h1 : (pyStripList (cs.take (MAX_HEADLINE_LENGTH - 3))).length
      ≤ (cs.take (MAX_HEADLINE_LENGTH - 3)).length := pyStripList_length _
  have h2 : (cs.take (MAX_HEADLINE_LENGTH - 3)).length ≤ MAX_HEADLINE_LENGTH - 3 := by
    simp [List.length_take]
  have h4 : ("..." : String).length = 3 := by decide
  rw [String.length_append, h4]
  have h5 : (String.mk (pyStripList (cs.take (MAX_HEADLINE_LENGTH - 3)))).length
      = (pyStripList (cs.take (MAX_HEADLINE_LENGTH - 3))).length := rfl
  rw [h5]
  simp only [MAX_HEADLINE_LENGTH] at h1 h2 ⊢
  omega

/-- The 301-character input (276 `a`s, a space, 24 `b`s) on which the
truncation fallback strips the trailing space of the 277-character cut. -/
def c10Text : String :=
  String.mk (List.replicate 276 'a' ++ [' '] ++ List.replicate 24 'b')

set_option maxRecDepth 10000 in
/-- C10 counterexample: on `c10Text` the fallback is not the first 277
characters plus an ellipsis — the cut is right-stripped first, so the result
has 279 characters, not 280. -/
theorem C10_counterexample :
    extract_headline c10Text = String.mk (List.replicate 276 'a') ++ "..."
    ∧ extract_headline c10Text ≠ String.mk (c10Text.data.take 277) ++ "..."
    ∧ (extract_headline c10Text).length = 279 := by
  refine ⟨by decide, by decide, by decide⟩

/-- C10 (amended): `extract_headline` always returns at most 280 characters:
text at most 280 characters after stripping is returned stripped; otherwise
the first sentence (stripped) is used when it fits within the limit;
otherwise the result is the first 277 characters of the stripped text,
right-stripped by `.strip()` (hence possibly shorter than 277), plus a
three-character ellipsis. -/
theorem C10_extract_headline_spec (text : String) :
    (extract_headline text).length ≤ MAX_HEADLINE_LENGTH
    ∧ ((pyStrip text).length ≤ MAX_HEADLINE_LENGTH →
        extract_headline text = pyStrip text)
    ∧ (MAX_HEADLINE_LENGTH < (pyStrip text).length →
        ∀ e, sentenceMatchEnd (pyStrip text).data = some e →
        (String.mk (pyStripList ((pyStrip text).data.take e))).length
            ≤ MAX_HEADLINE_LENGTH →
        extract_headline text = String.mk (pyStripList ((pyStrip text).data.take e)))
    ∧ (MAX_HEADLINE_LENGTH < (pyStrip text).length →
        (sentenceMatchEnd (pyStrip text).data = Option.none ∨
          ∀ e, sentenceMatchEnd (pyStrip text).data = some e →
            MAX_HEADLINE_LENGTH
              < (String.mk (pyStripList ((pyStrip text).data.take e))).length) →
        extract_headline text
          = String.mk (pyStripList ((pyStrip text).data.take (MAX_HEADLINE_LENGTH - 3)))
            ++ "...") := by
  by_cases h0 : text = ""
  · subst h0
    have hs : pyStrip "" = "" := by decide
    refine ⟨by decide, fun _ => by decide, ?_, ?_⟩
    · intro h
      rw [hs] at h
      exact absurd h (by decide)
    · intro h
      rw [hs] at h
      exact absurd h (by decide)
  · have hun : extract_headline text =
        (if (pyStrip text).length ≤ MAX_HEADLINE_LENGTH then pyStrip text
         else
           match sentenceMatchEnd (pyStrip text).data with
           | some e =>
             if (String.mk (pyStripList ((pyStrip text).data.take e))).length
                 ≤ MAX_HEADLINE_LENGTH then
               String.mk (pyStripList ((pyStrip text).data.take e))
             else
               String.mk (pyStripList ((pyStrip text).data.take (MAX_HEADLINE_LENGTH - 3)))
                 ++ "..."
           | Option.none =>
             String.mk (pyStripList ((pyStrip text).data.take (MAX_HEADLINE_LENGTH - 3)))
               ++ "...") := by
      simp only [extract_headline, if_neg h0]
    by_cases hle : (pyStrip text).length ≤ MAX_HEADLINE_LENGTH
    · rw [hun, if_pos hle]
      exact ⟨hle, fun _ => rfl,
        fun h => absurd h (by omega),
        fun h => absurd h (by omega)⟩
    · rw [hun, if_neg hle]
      push_neg at hle
      cases hm : sentenceMatchEnd (pyStrip text).data with
      | none =>
        dsimp only
        refine ⟨headline_fallback_length _, fun h => absurd h (by omega), ?_, ?_⟩
        · intro _ e he _
          cases he
        · intro _ _
          rfl
      | some e =>
        dsimp only
        by_cases hfs : (String.mk (pyStripList ((pyStrip text).data.take e))).length
            ≤ MAX_HEADLINE_LENGTH
        · rw [if_pos hfs]
          refine ⟨hfs, fun h => absurd h (by omega), ?_, ?_⟩
          · intro _ e' he' _
            cases he'
            rfl
          · intro _ hor
            rcases hor with hnone | hall
            · cases hnone
            · exact absurd (hall e rfl) (by omega)
        · rw [if_neg hfs]
          refine ⟨headline_fallback_length _, fun h => absurd h (by omega), ?_, ?_⟩
          · intro _ e' he' hfit
            cases he'
            exact absurd hfit hfs
          · intro _ _
            rfl

/-- C10 witness: the amended theorem at concrete inputs — a short padded
headline comes back stripped, and the long `c10Text` stays within 280. -/
theorem C10_witness :
    extract_headline "  Fed cuts rates.  " = pyStrip "  Fed cuts rates.  "
    ∧ (extract_headline c10Text).length ≤ MAX_HEADLINE_LENGTH :=
  ⟨(C10_extract_headline_spec "  Fed cuts rates.  ").2.1 (by decide),
   (C10_extract_headline_spec c10Text).1⟩

/-- The text field fails validation: falsy, or a string that is empty after
stripping. -/
def textFieldFails (v : JValue) : Prop :=
  v.truthy = false ∨ ∃ s, v = .str s ∧ pyStrip s = ""

/-- The text field passes validation: a string nonempty after stripping. -/
def textFieldOk (v : JValue) : Prop :=
  ∃ s, v = .str s ∧ pyStrip s ≠ ""

/-- The timestamp field fails with a ValidationError: falsy, or a string
that does not parse. -/
def tsFieldFails (v : JValue) : Prop :=
  v.truthy = false ∨ ∃ s, v = .str s ∧ fromisoformat (zuluAdjust s) = Option.none

theorem get_source_handle_shape (kvs : List (String × JValue)) :
    (∃ h, get_source_handle kvs = .ok h)
    ∨ get_source_handle kvs = .error (.attributeError "lower") := by
  cases h : pyGet kvs "newsType" (.str "") with
  | str s =>
    left
    simp only [get_source_handle, h]
    split_ifs <;> exact ⟨_, rfl⟩
  | none => exact Or.inr (by simp [get_source_handle, h])
  | bool b => exact Or.inr (by simp [get_source_handle, h])
  | int n => exact Or.inr (by simp [get_source_handle, h])
  | list xs => exact Or.inr (by simp [get_source_handle, h])
  | dict kvs2 => exact Or.inr (by simp [get_source_handle, h])

theorem postInitWrap_shape (x : RawNewsItem) :
    (∃ it, postInitWrap x = .ok it) ∨ (∃ m, postInitWrap x = .error (.valueError m)) := by
  unfold postInitWrap
  cases h : RawNewsItem.validate x with
  | ok it => exact Or.inl ⟨it, rfl⟩
  | error m => exact Or.inr ⟨m, rfl⟩

theorem normalize_body_cases (kvs : List (String × JValue)) (raw : JValue) :
    (∃ e, parse_timestamp (pyGet kvs "ts" JValue.none) = .error e
      ∧ normalize_news_body kvs raw = .error e)
    ∨ (∃ it, normalize_news_body kvs raw = .ok it)
    ∨ normalize_news_body kvs raw = .error (.attributeError "lower")
    ∨ (∃ m, normalize_news_body kvs raw = .error (.valueError m)) := by
  unfold normalize_news_body
  cases hpt : parse_timestamp (pyGet kvs "ts" JValue.none) with
  | error e => exact Or.inl ⟨e, rfl, rfl⟩
  | ok dt =>
    cases hnt : pyGet kvs "newsType" (.str "Other") with
    | str nts =>
      cases hgs : get_source_handle kvs with
      | error e2 =>
        rcases get_source_handle_shape kvs with ⟨h, hok⟩ | herr
        · rw [hok] at hgs
          cases hgs
        · rw [herr] at hgs
          injection hgs with he
          exact Or.inr (Or.inr (Or.inl (by rw [← he])))
      | ok handle =>
        rcases postInitWrap_shape
            { id := asStrD (pyGet kvs "_id" JValue.none),
              timestamp := dt,
              headline := extract_headline (textOf kvs),
              body := textOf kvs,
              source_type := SourceType.from_string nts,
              source_handle := handle,
              source_description := asStrD (pyGet kvs "description" (.str "")),
              source_url := asStrD (pyGet kvs "link" (.str "")),
              source_avatar := asStrD (pyGet kvs "avatarLink" (.str "")),
              media_url := asStrD (pyGet kvs "img" (.str "")),
              pre_tagged_tickers := jlistToStrings (pyGet kvs "coins" (.list [])),
              ticker_reasons := jlistConvert (pyGet kvs "coinReasons" (.list [])),
              pre_tagged_categories :=
                jlistToStrings (pyGet kvs "filterReasons" (.list [])),
              pre_highlighted_keywords :=
                jlistToStrings (pyGet kvs "highlightedWords" (.list [])),
              is_priority := (pyGet kvs "isHighlight" (.bool false)).truthy,
              is_narrative := (pyGet kvs "isNarrative" (.bool false)).truthy,
              urgency_tags := jlistToStrings (pyGet kvs "tags" (.list [])),
              economic_event_type := asStrD (pyGet kvs "eeType" (.str "")),
              raw_data := raw } with ⟨it, hit⟩ | ⟨m, hm⟩
        · exact Or.inr (Or.inl ⟨it, hit⟩)
        · exact Or.inr (Or.inr (Or.inr ⟨m, hm⟩))
    | none => exact Or.inr (Or.inr (Or.inl rfl))
    | bool b => exact Or.inr (Or.inr (Or.inl rfl))
    | int n => exact Or.inr (Or.inr (Or.inl rfl))
    | list xs => exact Or.inr (Or.inr (Or.inl rfl))
    | dict kvs2 => exact Or.inr (Or.inr (Or.inl rfl))

theorem normalize_body_not_VE (kvs : List (String × JValue)) (raw : JValue)
    (hts : ∀ m f, parse_timestamp (pyGet kvs "ts" JValue.none)
      ≠ .error (.validationError m f)) :
    ∀ m f, normalize_news_body kvs raw ≠ .error (.validationError m f) := by
  intro m f hcontra
  rcases normalize_body_cases kvs raw with ⟨e, hpt, hres⟩ | ⟨it, hres⟩ | hres | ⟨m2, hres⟩
  · rw [hres] at hcontra
    injection hcontra with he
    rw [he] at hpt
    exact hts m f hpt
  · rw [hres] at hcontra
    cases hcontra
  · rw [hres] at hcontra
    injection hcontra with he
    cases he
  · rw [hres] at hcontra
    injection hcontra with he
    cases he

theorem jvalue_str_or_not (v : JValue) : (∃ s, v = .str s) ∨ (∀ s, v ≠ .str s) := by
  cases v
  case str s => exact Or.inl ⟨s, rfl⟩
  all_goals exact Or.inr (fun s h => by cases h)

theorem validate_dict_eq (kvs : List (String × JValue)) :
    validate_dbnews_message (JValue.dict kvs) =
      (if (pyGet kvs "_id" JValue.none).truthy = false then
        .error (.validationError "Missing required field: _id" (some "_id"))
      else if (pyGet kvs "text" (JValue.str "")).truthy = false then
        .error (.validationError "Missing or empty required field: text" (some "text"))
      else
        (match pyGet kvs "text" (JValue.str "") with
         | .str s =>
           if pyStrip s = "" then
             .error (.validationError "Missing or empty required field: text"
               (some "text"))
           else if (pyGet kvs "ts" JValue.none).truthy = false then
             .error (.validationError "Missing required field: ts" (some "ts"))
           else .ok ()
         | _ => .error (.attributeError "strip"))) := rfl

theorem normalize_of_validate_error (raw : JValue) (e : PyExc)
    (h : validate_dbnews_message raw = .error e) : normalize_news raw = .error e := by
  unfold normalize_news
  rw [h]

theorem normalize_of_validate_ok (kvs : List (String × JValue))
    (h : validate_dbnews_message (JValue.dict kvs) = .ok ()) :
    normalize_news (JValue.dict kvs) = normalize_news_body kvs (JValue.dict kvs) := by
  unfold normalize_news
  rw [h]

theorem c9_attr_strip (kvs : List (String × JValue))
    (hid : (pyGet kvs "_id" JValue.none).truthy = true)
    (htr : (pyGet kvs "text" (JValue.str "")).truthy = true)
    (hnostr : ∀ s, pyGet kvs "text" (JValue.str "") ≠ JValue.str s) :
    normalize_news (JValue.dict kvs) = .error (.attributeError "strip") := by
  refine normalize_of_validate_error _ _ ?_
  cases htv : pyGet kvs "text" (JValue.str "") with
  | str s => exact absurd htv (hnostr s)
  | none => rw [htv] at htr; simp [JValue.truthy] at htr
  | bool b => rw [validate_dict_eq, hid, htr, htv]; simp
  | int n => rw [validate_dict_eq, hid, htr, htv]; simp
  | list xs => rw [validate_dict_eq, hid, htr, htv]; simp
  | dict kvs2 => rw [validate_dict_eq, hid, htr, htv]; simp

theorem c9_attr_endswith (kvs : List (String × JValue))
    (hts : (pyGet kvs "ts" JValue.none).truthy = true)
    (hnots : ∀ s, pyGet kvs "ts" JValue.none ≠ JValue.str s) :
    parse_timestamp (pyGet kvs "ts" JValue.none)
      = .error (.attributeError "endswith") := by
  cases htsv : pyGet kvs "ts" JValue.none with
  | str s => exact absurd htsv (hnots s)
  | none => rw [htsv] at hts; simp [JValue.truthy] at hts
  | bool b => rw [htsv] at hts; unfold parse_timestamp; rw [hts]; simp
  | int n => rw [htsv] at hts; unfold parse_timestamp; rw [hts]; simp
  | list xs => rw [htsv] at hts; unfold parse_timestamp; rw [hts]; simp
  | dict kvs2 => rw [htsv] at hts; unfold parse_timestamp; rw [hts]; simp

/-- C9 (amended): `normalize_news` raises a ValidationError carrying the
offending field name — and produces no item — exactly when: the record is
not a mapping; or the `_id` field is missing or falsy; or the `text` field
is falsy, or a string that is empty after stripping; or (the text being an
acceptable string) the `ts` field is falsy, or a string that fails timestamp
parsing. In particular a record missing `_id` raises a ValidationError
naming the `_id` field. A required field present as a truthy non-string
value instead fails with an `AttributeError` (`.strip`/`.endswith`), not a
ValidationError. -/
theorem C9_normalize_validation (raw : JValue) :
    ((∃ m f, normalize_news raw = Except.error (PyExc.validationError m f)) ↔
      ((∀ kvs, raw ≠ JValue.dict kvs)
        ∨ ∃ kvs, raw = JValue.dict kvs ∧
          ((pyGet kvs "_id" JValue.none).truthy = false
           ∨ ((pyGet kvs "_id" JValue.none).truthy = true
               ∧ textFieldFails (pyGet kvs "text" (JValue.str "")))
           ∨ ((pyGet kvs "_id" JValue.none).truthy = true
               ∧ textFieldOk (pyGet kvs "text" (JValue.str ""))
               ∧ tsFieldFails (pyGet kvs "ts" JValue.none)))))
    ∧ (∀ kvs, raw = JValue.dict kvs →
        (pyGet kvs "_id" JValue.none).truthy = false →
        normalize_news raw
          = Except.error (PyExc.validationError "Missing required field: _id"
              (some "_id")))
    ∧ (∀ e, normalize_news raw = Except.error e →
        ∀ item, normalize_news raw ≠ Except.ok item) := by
  refine ⟨?_, ?_, ?_⟩
  · cases raw with
    | none =>
      exact ⟨fun _ => Or.inl (fun kvs h => by cases h), fun _ => ⟨_, some "message", rfl⟩⟩
    | bool b =>
      exact ⟨fun _ => Or.inl (fun kvs h => by cases h), fun _ => ⟨_, some "message", rfl⟩⟩
    | int n =>
      exact ⟨fun _ => Or.inl (fun kvs h => by cases h), fun _ => ⟨_, some "message", rfl⟩⟩
    | str s =>
      exact ⟨fun _ => Or.inl (fun kvs h => by cases h), fun _ => ⟨_, some "message", rfl⟩⟩
    | list xs =>
      exact ⟨fun _ => Or.inl (fun kvs h => by cases h), fun _ => ⟨_, some "message", rfl⟩⟩
    | dict kvs =>
      cases hid : (pyGet kvs "_id" JValue.none).truthy with
      | false =>
        have hres : normalize_news (JValue.dict kvs)
            = .error (.validationError "Missing required field: _id" (some "_id")) := by
          refine normalize_of_validate_error _ _ ?_
          rw [validate_dict_eq, hid]
          simp
        exact ⟨fun _ => Or.inr ⟨kvs, rfl, Or.inl hid⟩, fun _ => ⟨_, _, hres⟩⟩
      | true =>
        cases htr : (pyGet kvs "text" (JValue.str "")).truthy with
        | false =>
          have hres : normalize_news (JValue.dict kvs)
              = .error (.validationError "Missing or empty required field: text"
                  (some "text")) := by
            refine normalize_of_validate_error _ _ ?_
            rw [validate_dict_eq, hid, htr]
            simp
          exact ⟨fun _ => Or.inr ⟨kvs, rfl, Or.inr (Or.inl ⟨hid, Or.inl htr⟩)⟩,
                 fun _ => ⟨_, _, hres⟩⟩
        | true =>
          rcases jvalue_str_or_not (pyGet kvs "text" (JValue.str "")) with ⟨s, htv⟩ | hnostr
          · by_cases hstrip : pyStrip s = ""
            · have hres : normalize_news (JValue.dict kvs)
                  = .error (.validationError "Missing or empty required field: text"
                      (some "text")) := by
                refine normalize_of_validate_error _ _ ?_
                rw [validate_dict_eq, hid, htr, htv]
                simp [hstrip]
              exact ⟨fun _ => Or.inr ⟨kvs, rfl,
                       Or.inr (Or.inl ⟨hid, Or.inr ⟨s, htv, hstrip⟩⟩)⟩,
                     fun _ => ⟨_, _, hres⟩⟩
            · cases hts : (pyGet kvs "ts" JValue.none).truthy with
              | false =>
                have hres : normalize_news (JValue.dict kvs)
                    = .error (.validationError "Missing required field: ts"
                        (some "ts")) := by
                  refine normalize_of_validate_error _ _ ?_
                  rw [validate_dict_eq, hid, htr, htv]
                  simp [hstrip, hts]
                exact ⟨fun _ => Or.inr ⟨kvs, rfl,
                         Or.inr (Or.inr ⟨hid, ⟨s, htv, hstrip⟩, Or.inl hts⟩)⟩,
                       fun _ => ⟨_, _, hres⟩⟩
              | true =>
                have hval : validate_dbnews_message (JValue.dict kvs) = .ok () := by
                  rw [validate_dict_eq, hid, htr, htv]
                  simp [hstrip, hts]
                have hbody : normalize_news (JValue.dict kvs)
                    = normalize_news_body kvs (JValue.dict kvs) :=
                  normalize_of_validate_ok kvs hval
                rcases jvalue_str_or_not (pyGet kvs "ts" JValue.none) with ⟨s2, htsv⟩ | hnots
                · cases hparse : fromisoformat (zuluAdjust s2) with
                  | none =>
                    have hpt : parse_timestamp (pyGet kvs "ts" JValue.none)
                        = .error (.validationError ("Invalid timestamp format: " ++ s2)
                            (some "ts")) := by
                      unfold parse_timestamp
                      rw [hts, htsv]
                      simp [hparse]
                    have hres : normalize_news (JValue.dict kvs)
                        = .error (.validationError ("Invalid timestamp format: " ++ s2)
                            (some "ts")) := by
                      rw [hbody]
                      unfold normalize_news_body
                      rw [hpt]
                    exact ⟨fun _ => Or.inr ⟨kvs, rfl,
                             Or.inr (Or.inr ⟨hid, ⟨s, htv, hstrip⟩,
                               Or.inr ⟨s2, htsv, hparse⟩⟩)⟩,
                           fun _ => ⟨_, _, hres⟩⟩
                  | some dt =>
                    have hpt : parse_timestamp (pyGet kvs "ts" JValue.none)
                        = .ok (if dt.tz = Option.none then { dt with tz := some 0 }
                            else dt) := by
                      unfold parse_timestamp
                      rw [hts, htsv]
                      simp [hparse]
                    refine iff_of_false ?_ ?_
                    · rintro ⟨m, f, habs⟩
                      rw [hbody] at habs
                      exact normalize_body_not_VE kvs (JValue.dict kvs)
                        (fun m2 f2 hc => by rw [hpt] at hc; cases hc) m f habs
                    · rintro (hnd | ⟨kvs2, heq, hdisj⟩)
                      · exact hnd kvs rfl
                      · injection heq with hk
                        subst hk
                        rcases hdisj with hidf | ⟨_, htf⟩ | ⟨_, _, htsf⟩
                        · rw [hid] at hidf; cases hidf
                        · rcases htf with htrf | ⟨s3, hseq, hstr3⟩
                          · rw [htr] at htrf; cases htrf
                          · rw [htv] at hseq
                            injection hseq with hss
                            subst hss
                            exact hstrip hstr3
                        · rcases htsf with htsr | ⟨s4, hseq2, hparse2⟩
                          · rw [hts] at htsr; cases htsr
                          · rw [htsv] at hseq2
                            injection hseq2 with hss2
                            subst hss2
                            rw [hparse] at hparse2
                            cases hparse2
                · have hpt := c9_attr_endswith kvs hts hnots
                  refine iff_of_false ?_ ?_
                  · rintro ⟨m, f, habs⟩
                    rw [hbody] at habs
                    exact normalize_body_not_VE kvs (JValue.dict kvs)
                      (fun m2 f2 hc => by
                        rw [hpt] at hc
                        injection hc with h2
                        exact PyExc.noConfusion h2) m f habs
                  · rintro (hnd | ⟨kvs2, heq, hdisj⟩)
                    · exact hnd kvs rfl
                    · injection heq with hk
                      subst hk
                      rcases hdisj with hidf | ⟨_, htf⟩ | ⟨_, _, htsf⟩
                      · rw [hid] at hidf; cases hidf
                      · rcases htf with htrf | ⟨s3, hseq, hstr3⟩
                        · rw [htr] at htrf; cases htrf
                        · rw [htv] at hseq
                          injection hseq with hss
                          subst hss
                          exact hstrip hstr3
                      · rcases htsf with htsr | ⟨s4, hseq2, _⟩
                        · rw [hts] at htsr; cases htsr
                        · exact hnots s4 hseq2
          · have hres := c9_attr_strip kvs hid htr hnostr
            refine iff_of_false ?_ ?_
            · rintro ⟨m, f, habs⟩
              rw [hres] at habs
              injection habs with h2
              exact PyExc.noConfusion h2
            · rintro (hnd | ⟨kvs2, heq, hdisj⟩)
              · exact hnd kvs rfl
              · injection heq with hk
                subst hk
                rcases hdisj with hidf | ⟨_, htf⟩ | ⟨_, hok, _⟩
                · rw [hid] at hidf; cases hidf
                · rcases htf with htrf | ⟨s3, hseq, _⟩
                  · rw [htr] at htrf; cases htrf
                  · exact hnostr s3 hseq
                · rcases hok with ⟨s3, hseq, _⟩
                  exact hnostr s3 hseq
  · rintro kvs rfl h
    refine normalize_of_validate_error _ _ ?_
    rw [validate_dict_eq, h]
    simp
  · intro e he item hok
    rw [he] at hok
    cases hok

/-- A parseable record that lacks the required `_id` field. -/
def c9MissingIdRec : List (String × JValue) :=
  [("text", JValue.str "hello world"), ("ts", JValue.str "2025-07-24T17:06:15.272Z")]

/-- C9 witness: the amended theorem at a concrete record missing `_id`:
normalize raises a ValidationError naming the `_id` field and produces no
item. -/
theorem C9_witness :
    normalize_news (JValue.dict c9MissingIdRec)
      = Except.error (PyExc.validationError "Missing required field: _id"
          (some "_id")) :=
  (C9_normalize_validation (JValue.dict c9MissingIdRec)).2.1 c9MissingIdRec rfl
    (by decide)

/-- A record whose required `text` field is present but an integer. -/
def c9IntTextRec : JValue :=
  JValue.dict [("_id", JValue.str "abc"), ("text", JValue.int 42),
    ("ts", JValue.str "2025-07-24T17:06:15Z")]

/-- C9 counterexample: on a record whose required text field is a truthy
non-string (malformed), normalize raises `AttributeError` (`.strip`), not a
ValidationError as the claim requires. -/
theorem C9_counterexample :
    normalize_news c9IntTextRec = Except.error (PyExc.attributeError "strip") := by
  rfl

/-- C7: evaluating the bus at the failing input. On a fresh bus,
`unsubscribe` for a channel that has no entry does not leave the state
unchanged: the `defaultdict` lookup inserts an empty subscriber list, so the
channel count grows from 0 to 1 (while the subscriber count stays 0). -/
theorem C7_unsubscribe_missing_channel_phantom_entry :
    PubSub.empty.channel_count = 0
    ∧ (PubSub.empty.unsubscribe "news:politics" 0).channel_count = 1
    ∧ (PubSub.empty.unsubscribe "news:politics" 0).subscriber_count = 0 := by
  refine ⟨rfl, rfl, rfl⟩
